import Mathlib

/-!
# Verification of the icon-generator orchestrator

Shallow embedding of the backend logic of the `icon-generator` repository:

* `src/unnamed/part_002` — the main serverless handler with deterministic
  seeding (`generateSeed`), retry with exponential backoff
  (`retryWithBackoff`), input validation (`validateInput`), a sequential
  task loop with per-task error capture, partial-success aggregation, and
  substring-based HTTP status selection;
* `src/unnamed/part_001` — the test file (same `generateSeed` /
  `validateInput` bodies);
* `src/netlify/functions/generate-icons.js` and the express route in
  `src/unnamed/part_000` — the older handlers with a `Promise.all` fan-out
  and no retry / partial-success path.

JavaScript values that flow into `validateInput` are modelled by the small
inductive `JValue`; JavaScript strings are modelled through their character
sequences (`String` in Lean, `.data` for the code-unit list), with the
string operations (`trim`, `length`, property-key conversion, `includes`)
re-implemented over the character list exactly as ECMAScript specifies them
for the values the program can see.
-/

namespace IconGen

/-! ## JavaScript value model -/

/-- A JavaScript value as it can appear in the parsed JSON body (plus
`undefined` for an absent field).  Arrays carry string elements, which is
the only array content the program ever consumes (`brandColors` tokens). -/
inductive JValue where
  | jstr (s : String)
  | jnum (n : Int)
  | jbool (b : Bool)
  | jnull
  | jundef
  | jarr (xs : List String)
deriving DecidableEq, Repr

namespace JValue

/-- JavaScript truthiness (`ToBoolean`) for the modelled values. -/
def truthy : JValue → Bool
  | jstr s => s ≠ ""
  | jnum n => n ≠ 0
  | jbool b => b
  | jnull => false
  | jundef => false
  | jarr _ => true

/-- `typeof v === 'string'`. -/
def isStr : JValue → Bool
  | jstr _ => true
  | _ => false

/-- `Array.isArray(v)`. -/
def isArr : JValue → Bool
  | jarr _ => true
  | _ => false

/-- The `.length` property: defined for strings and arrays, `undefined`
(`none`) for everything else. -/
def lengthOf : JValue → Option Nat
  | jstr s => some s.data.length
  | jarr xs => some xs.length
  | _ => none

/-- `ToString`, as used by property-key lookup `obj[v]` and template
interpolation.  An array stringifies to its elements joined by `","`. -/
def toPrimString : JValue → String
  | jstr s => s
  | jnum n => toString n
  | jbool b => if b then "true" else "false"
  | jnull => "null"
  | jundef => "undefined"
  | jarr xs => String.intercalate "," xs

end JValue

/-- JavaScript `v.length > k` where `v.length` may be `undefined`
(`undefined > k` evaluates to `false`). -/
def jsLenGt (v : JValue) (k : Nat) : Bool :=
  match v.lengthOf with
  | some n => k < n
  | none => false

/-- JavaScript `String.prototype.trim`: strip whitespace from both ends
of the character sequence. -/
def jsTrim (s : String) : String :=
  ⟨((s.data.dropWhile Char.isWhitespace).reverse.dropWhile
      Char.isWhitespace).reverse⟩

/-! ## Constant tables (`STYLE_PROMPTS`, `ICON_VARIATIONS`) -/

/-- The `STYLE_PROMPTS` object of `src/unnamed/part_002` (and of the two
older handlers, which share it verbatim), as a lookup on the string form
of the property key — JavaScript object keys are strings, so
`STYLE_PROMPTS[2]` and `STYLE_PROMPTS["2"]` hit the same entry. -/
def STYLE_PROMPTS (key : String) : Option String :=
  if key = "1" then
    some "simple flat icon design, minimal, clean lines, solid colors, professional icon style"
  else if key = "2" then
    some "pastel colors, soft gradients, gentle rounded shapes, cute aesthetic, dreamy icon style"
  else if key = "3" then
    some "bubble style, glossy, shiny reflections, translucent, playful, vibrant icon style"
  else if key = "4" then
    some "neon style, glowing edges, dark background, cyberpunk aesthetic, luminous icon style"
  else if key = "5" then
    some "3D rendered, isometric view, depth and shadows, modern professional icon style"
  else none

/-- The `ICON_VARIATIONS` array (4 fixed variation descriptors). -/
def ICON_VARIATIONS : List String :=
  [ "variation 1, primary subject"
  , "variation 2, alternative angle"
  , "variation 3, different composition"
  , "variation 4, unique perspective" ]

/-- `MAX_RETRIES` constant. -/
def MAX_RETRIES : Nat := 2

/-- `RETRY_DELAY_MS` constant. -/
def RETRY_DELAY_MS : Nat := 1000

/-! ## Seed derivation (`generateSeed`) -/

/-- Wrap an integer to a signed 32-bit value, as JavaScript's `|`, `&`,
`<<` operators do (`ToInt32`). -/
def toInt32 (x : Int) : Int :=
  (x + 2 ^ 31) % 2 ^ 32 - 2 ^ 31

/-- One iteration of the loop body of `generateSeed`:
`hash = ((hash << 5) - hash) + char; hash = hash & hash;`.
`hash << 5` wraps to 32 bits first; the subtraction and addition are exact
(double-precision, far below 2^53); `hash & hash` wraps the result. -/
def hashStep (hash : Int) (c : Nat) : Int :=
  toInt32 (toInt32 (hash * 32) - hash + (c : Int))

/-- The rolling-hash loop of `generateSeed` over a list of character
codes. -/
def hashLoop (hash : Int) : List Nat → Int
  | [] => hash
  | c :: cs => hashLoop (hashStep hash c) cs

/-- `generateSeed(prompt, style)` from `src/unnamed/part_002` lines 26–35
(also `src/unnamed/part_001` lines 34–43): hash the character codes of
`` `${prompt}-${style}` `` and return the absolute value.  `style` is
interpolated through its decimal string form. -/
def generateSeed (prompt : String) (style : Int) : Int :=
  |hashLoop 0 ((prompt ++ "-" ++ toString style).data.map Char.toNat)|

/-- The spec's description of the same hash: `hash = hash*31 + charCode`,
wrapped to signed 32-bit at each step. -/
def specHashStep (hash : Int) (c : Nat) : Int :=
  toInt32 (hash * 31 + (c : Int))

/-- The spec's rolling hash over a list of character codes. -/
def specHashLoop (hash : Int) : List Nat → Int
  | [] => hash
  | c :: cs => specHashLoop (specHashStep hash c) cs

/-- Seed derivation as the spec words it: absolute value of the `*31`
rolling hash over `"{prompt}-{style}"`. -/
def specSeed (prompt : String) (style : Int) : Int :=
  |specHashLoop 0 ((prompt ++ "-" ++ toString style).data.map Char.toNat)|

/-! ## Input validation (`validateInput`) -/

/-- Rule 1 of `validateInput`:
`!prompt || typeof prompt !== 'string' || prompt.trim().length === 0`.
Every non-string is caught by the `typeof` test; a string is caught
exactly when its trimmed form is empty (`!prompt`, i.e. the empty string,
is subsumed). -/
def promptMissing (prompt : JValue) : Bool :=
  match prompt with
  | .jstr s => jsTrim s = ""
  | _ => true

/-- Rule 2 of `validateInput`: `prompt && prompt.length > 200` (on the
raw, untrimmed value; `.length` of a non-string non-array is `undefined`
and the comparison is then `false`). -/
def promptTooLong (prompt : JValue) : Bool :=
  prompt.truthy && jsLenGt prompt 200

/-- Rule 3 of `validateInput`: `!style || !STYLE_PROMPTS[style]`.
Property lookup converts the key to a string; all stored descriptors are
truthy, so `!STYLE_PROMPTS[style]` is exactly lookup failure. -/
def styleInvalid (style : JValue) : Bool :=
  !style.truthy || (STYLE_PROMPTS style.toPrimString).isNone

/-- Rule 4 of `validateInput`: `brandColors && !Array.isArray(brandColors)`. -/
def colorsNotArray (brandColors : JValue) : Bool :=
  brandColors.truthy && !brandColors.isArr

/-- Rule 5 of `validateInput`: `brandColors && brandColors.length > 5`. -/
def colorsTooMany (brandColors : JValue) : Bool :=
  brandColors.truthy && jsLenGt brandColors 5

/-- `validateInput(prompt, style, brandColors)` from
`src/unnamed/part_002` lines 54–78: each rule is checked independently and
every violated rule contributes its message, in source order. -/
def validateInput (prompt style brandColors : JValue) : List String :=
  (if promptMissing prompt then
    ["Prompt is required and must be a non-empty string"] else []) ++
  (if promptTooLong prompt then
    ["Prompt must be less than 200 characters"] else []) ++
  (if styleInvalid style then
    ["Invalid style selection"] else []) ++
  (if colorsNotArray brandColors then
    ["Brand colors must be an array"] else []) ++
  (if colorsTooMany brandColors then
    ["Maximum 5 brand colors allowed"] else [])

/-! ## Retry with exponential backoff (`retryWithBackoff`) -/

instance {ε α : Type _} [DecidableEq ε] [DecidableEq α] :
    DecidableEq (Except ε α) := fun x y =>
  match x, y with
  | .ok a, .ok b =>
    if h : a = b then .isTrue (congrArg Except.ok h)
    else .isFalse (fun he => h (Except.ok.inj he))
  | .error a, .error b =>
    if h : a = b then .isTrue (congrArg Except.error h)
    else .isFalse (fun he => h (Except.error.inj he))
  | .ok _, .error _ => .isFalse (fun he => Except.noConfusion he)
  | .error _, .ok _ => .isFalse (fun he => Except.noConfusion he)

/-- Trace of one `retryWithBackoff(fn)` execution: the value returned (or
the error finally re-thrown), how many times `fn` was invoked, and the
backoff delays slept between consecutive invocations. -/
structure RetryTrace (ε α : Type) where
  result : Except ε α
  calls : Nat
  delays : List Nat
deriving DecidableEq, Repr

/-- The `for (let attempt = 0; attempt <= maxRetries; attempt++)` loop of
`retryWithBackoff`, structured on `remaining = maxRetries - attempt`.
`remaining = 0` is the `attempt === maxRetries` case, where a failure is
re-thrown; otherwise a failure sleeps `RETRY_DELAY_MS * 2^attempt` and
continues with the next attempt.  The outcome of the `attempt`-th
invocation of `fn` is `f attempt`. -/
def retryGo (f : Nat → Except ε α) (attempt : Nat) : Nat → RetryTrace ε α
  | 0 => { result := f attempt, calls := 1, delays := [] }
  | remaining + 1 =>
    match f attempt with
    | .ok a => { result := .ok a, calls := 1, delays := [] }
    | .error _ =>
      let t := retryGo f (attempt + 1) remaining
      { result := t.result
        calls := t.calls + 1
        delays := RETRY_DELAY_MS * 2 ^ attempt :: t.delays }

/-- `retryWithBackoff(fn, maxRetries)` from `src/unnamed/part_002`
lines 38–51; every call site uses the default `maxRetries = MAX_RETRIES`. -/
def retryWithBackoff (f : Nat → Except ε α) (maxRetries : Nat) : RetryTrace ε α :=
  retryGo f 0 maxRetries

/-- `true` iff an `Except` value is a success. -/
def exOk : Except ε α → Bool
  | .ok _ => true
  | .error _ => false

/-! ## Variation planning (per-index `fullPrompt` and seed) -/

/-- `colorInstruction` from `src/unnamed/part_002` lines 130–132:
`brandColors && brandColors.length > 0 ? ... : ''`.  A validated
`brandColors` is either absent or a string array; absence is modelled by
`[]`, which the code treats the same way (empty instruction). -/
def colorInstruction (brandColors : List String) : String :=
  if 0 < brandColors.length then
    ", using these exact colors: " ++ String.intercalate ", " brandColors ++
      ", maintain color consistency"
  else ""

/-- One generation task: index, resolved prompt text, seed. -/
structure GenerationTask where
  index : Nat
  fullPrompt : String
  seed : Int
deriving DecidableEq, Repr

/-- The template literal of `src/unnamed/part_002` line 145:
`` `${prompt} icon, ${variation}, ${styleDescription}${colorInstruction}, 512x512, icon design, white background, centered, high quality` ``. -/
def fullPromptFor (prompt variation styleDescription colorInstr : String) : String :=
  prompt ++ " icon, " ++ variation ++ ", " ++ styleDescription ++ colorInstr ++
    ", 512x512, icon design, white background, centered, high quality"

/-- The planning part of the handler loop (`src/unnamed/part_002`
lines 140–145): for each variation index, the task's `fullPrompt` (built
from the raw `prompt` variable) and seed `baseSeed + index`. -/
def planTasks (prompt styleDescription : String) (brandColors : List String)
    (baseSeed : Int) : List GenerationTask :=
  (List.range ICON_VARIATIONS.length).map fun index =>
    { index := index
      fullPrompt := fullPromptFor prompt (ICON_VARIATIONS.getD index "")
        styleDescription (colorInstruction brandColors)
      seed := baseSeed + index }

/-- Planner as the claim words it: identical to `planTasks` except that the
prompt is used in trimmed form (`"the trimmed prompt followed by
\" icon\""`).  Kept separate so the two can be compared. -/
def specPlanTasks (prompt styleDescription : String) (brandColors : List String)
    (baseSeed : Int) : List GenerationTask :=
  (List.range ICON_VARIATIONS.length).map fun index =>
    { index := index
      fullPrompt := fullPromptFor (jsTrim prompt) (ICON_VARIATIONS.getD index "")
        styleDescription (colorInstruction brandColors)
      seed := baseSeed + index }

/-! ## Task loop with per-task error capture -/

/-- A successful task outcome pushed onto `results`. -/
structure IconResult where
  index : Nat
  url : String
  prompt : String
  seed : Int
deriving DecidableEq, Repr

/-- A failed task outcome pushed onto `errors`: index and
`error.message`. -/
structure TaskError where
  index : Nat
  error : String
deriving DecidableEq, Repr

/-- The body of the `for (let index = 0; ...)` loop of
`src/unnamed/part_002` lines 140–193, over the enumerated variation list:
each index contributes either an `IconResult` (the `try` branch) or a
`TaskError` (the `catch` branch); `finalOutcome i` is what
`retryWithBackoff` settles to for task `i`. -/
def runTasksGo (finalOutcome : Nat → Except String String)
    (prompt styleDescription : String) (brandColors : List String)
    (baseSeed : Int) : List Nat → List IconResult × List TaskError
  | [] => ([], [])
  | index :: rest =>
    let acc := runTasksGo finalOutcome prompt styleDescription brandColors
      baseSeed rest
    match finalOutcome index with
    | .ok url =>
      ({ index := index
         url := url
         prompt := fullPromptFor prompt (ICON_VARIATIONS.getD index "")
           styleDescription (colorInstruction brandColors)
         seed := baseSeed + index } :: acc.1, acc.2)
    | .error e => (acc.1, { index := index, error := e } :: acc.2)

/-- The whole task loop: `behavior i k` is the backend's answer to the
`k`-th attempt of task `i` (a URL string or a thrown error's message);
each task runs through `retryWithBackoff` with the default retry count. -/
def runTasks (behavior : Nat → Nat → Except String String)
    (prompt styleDescription : String) (brandColors : List String)
    (baseSeed : Int) : List IconResult × List TaskError :=
  runTasksGo (fun i => (retryWithBackoff (behavior i) MAX_RETRIES).result)
    prompt styleDescription brandColors baseSeed
    (List.range ICON_VARIATIONS.length)

/-! ## Result aggregation -/

/-- One entry of the response's `icons` array. -/
structure Icon where
  url : String
  prompt : String
  seed : Int
deriving DecidableEq, Repr

/-- The successful response payload: sorted icons, the `partial` flag, and
the optional `errors` field (`none` models the `undefined` that
`JSON.stringify` omits). -/
structure BatchPayload where
  icons : List Icon
  partialFlag : Bool
  errors : Option (List TaskError)
deriving DecidableEq, Repr

/-- Aggregation outcome: a 200 payload, or the thrown
`Failed to generate sufficient icons. Only ${results.length}/4 succeeded.`
error, modelled with the two interpolated counts. -/
inductive BatchResult where
  | ok (payload : BatchPayload)
  | insufficient (succeeded expected : Nat)
deriving DecidableEq, Repr

/-- `results.sort((a, b) => a.index - b.index)`: sort ascending by
index. -/
def sortByIndex (rs : List IconResult) : List IconResult :=
  List.insertionSort (fun a b => a.index ≤ b.index) rs

/-- The aggregation step of `src/unnamed/part_002` lines 195–215. -/
def aggregate (results : List IconResult) (errors : List TaskError) :
    BatchResult :=
  if 2 ≤ results.length then
    .ok { icons := (sortByIndex results).map fun r =>
            { url := r.url, prompt := r.prompt, seed := r.seed }
          partialFlag := decide (results.length < 4)
          errors := if 0 < errors.length then some errors else none }
  else
    .insufficient results.length 4

/-! ## HTTP status selection from the failure message -/

/-- `needle` matches at the head of the second list. -/
def leadMatch : List Char → List Char → Bool
  | [], _ => true
  | _ :: _, [] => false
  | a :: as, b :: bs => a == b && leadMatch as bs

/-- `needle` occurs somewhere in the list. -/
def hasSubList (needle : List Char) : List Char → Bool
  | [] => needle.isEmpty
  | c :: rest => leadMatch needle (c :: rest) || hasSubList needle rest

/-- JavaScript `hay.includes(needle)`. -/
def jsIncludes (hay needle : String) : Bool :=
  hasSubList needle.data hay.data

/-- The catch block of `src/unnamed/part_002` lines 217–243: status code,
`error` string, and `details` (the original message), chosen by an ordered
`if/else if` chain of substring tests. -/
def errorResponse (message : String) : Nat × String × String :=
  if jsIncludes message "API key" then
    (503, "API configuration error", message)
  else if jsIncludes message "timeout" then
    (504, "Request timeout - please try again", message)
  else if jsIncludes message "rate limit" then
    (429, "Rate limit exceeded - please wait a moment", message)
  else
    (500, "Failed to generate icons", message)

/-! ## The older handlers (`src/netlify/functions/generate-icons.js` and the
express route of `src/unnamed/part_000`): `Promise.all` fan-out, no retry,
no partial success.  The two files share this logic verbatim (the netlify
handler returns `statusCode` fields, the express route calls
`res.status(...)`); one embedding covers both. -/

/-- An icon of the older handlers' response: url and prompt only — the
structure has no seed field, as the code returns none. -/
structure LegacyIcon where
  url : String
  prompt : String
deriving DecidableEq, Repr

/-- `` `, using color palette: ${brandColors.join(', ')}` `` when
`brandColors` is truthy (any array, even empty, is truthy), `''` when the
field is absent. -/
def legacyColorInstruction : Option (List String) → String
  | some cs => ", using color palette: " ++ String.intercalate ", " cs
  | none => ""

/-- The older template literal (no `high quality` clause):
`` `${prompt} icon, ${variation}, ${styleDescription}${colorInstruction}, 512x512, icon design, white background, centered` ``. -/
def legacyFullPrompt (prompt variation styleDescription colorInstr : String) :
    String :=
  prompt ++ " icon, " ++ variation ++ ", " ++ styleDescription ++ colorInstr ++
    ", 512x512, icon design, white background, centered"

/-- The older handlers' response: 200 with icons, or an error status with
`{ error, details }`. -/
inductive LegacyResponse where
  | success (icons : List LegacyIcon)
  | failure (statusCode : Nat) (error details : String)
deriving DecidableEq, Repr

/-- `Promise.all` over the per-index generation calls: succeeds with every
`(index, url)` pair iff every call succeeds, rejects with a failing call's
reason otherwise. -/
def promiseAll (outcome : Nat → Except String String) :
    List Nat → Except String (List (Nat × String))
  | [] => .ok []
  | i :: is =>
    match outcome i, promiseAll outcome is with
    | .error e, _ => .error e
    | .ok _, .error e => .error e
    | .ok url, .ok rest => .ok ((i, url) :: rest)

/-- The older handlers after validation: join the four generation calls
with `Promise.all`; any rejection reaches the catch block, which answers
500 `{ error: 'Failed to generate icons', details: message }` with no
icons.  `outcome i` is what the single (non-retried) call for index `i`
settles to. -/
def legacyHandler (outcome : Nat → Except String String)
    (prompt styleDescription : String) (brandColors : Option (List String)) :
    LegacyResponse :=
  match promiseAll outcome (List.range ICON_VARIATIONS.length) with
  | .ok pairs =>
    .success (pairs.map fun p =>
      { url := p.2
        prompt := legacyFullPrompt prompt (ICON_VARIATIONS.getD p.1 "")
          styleDescription (legacyColorInstruction brandColors) })
  | .error e => .failure 500 "Failed to generate icons" e

/-! ## Virtual-time model of the task loop

`src/unnamed/part_002` awaits each task (and its backoff sleeps) inside a
sequential `for` loop, so the wall-clock structure is fully determined:
task `i + 1`'s first attempt starts when task `i` has finished.  `dur k`
is the time the `k`-th backend attempt of a task takes to settle. -/

/-- Virtual time one task occupies: the durations of the attempts actually
made plus the backoff sleeps between them. -/
def taskElapsed (attempts : Nat → Except String String) (dur : Nat → Nat) :
    Nat :=
  let t := retryWithBackoff attempts MAX_RETRIES
  ((List.range t.calls).map dur).sum + t.delays.sum

/-- Launch (start) times of the four tasks under the sequential loop: the
clock is threaded through the iterations, each task starting at the
current clock and advancing it by its elapsed time. -/
def launchTimes (behavior : Nat → Nat → Except String String)
    (dur : Nat → Nat → Nat) : List Nat :=
  ((List.range ICON_VARIATIONS.length).foldl
    (fun acc i => (acc.1 ++ [acc.2], acc.2 + taskElapsed (behavior i) (dur i)))
    (([] : List Nat), 0)).1

/-! ## Helper lemmas -/

theorem toInt32_emod (x : Int) : toInt32 x % 2 ^ 32 = x % 2 ^ 32 := by
  unfold toInt32
  omega

theorem toInt32_congr {x y : Int} (h : x % 2 ^ 32 = y % 2 ^ 32) :
    toInt32 x = toInt32 y := by
  unfold toInt32
  omega

/-- The loop body `((hash << 5) - hash) + char` followed by `hash & hash`
computes exactly the wrapped `hash * 31 + char`. -/
theorem hashStep_eq_specHashStep (h : Int) (c : Nat) :
    hashStep h c = specHashStep h c := by
  unfold hashStep specHashStep
  apply toInt32_congr
  have ha := toInt32_emod (h * 32)
  omega

theorem hashLoop_eq_specHashLoop (cs : List Nat) :
    ∀ h, hashLoop h cs = specHashLoop h cs := by
  induction cs with
  | nil => intro h; rfl
  | cons c cs ih =>
    intro h
    rw [hashLoop, specHashLoop, hashStep_eq_specHashStep]
    exact ih _

theorem mem_if_singleton {c : Prop} [Decidable c] {m x : String} :
    (x ∈ if c then [m] else []) ↔ c ∧ x = m := by
  by_cases h : c <;> simp [h]

theorem if_singleton_eq_nil {c : Prop} [Decidable c] {m : String} :
    ((if c then [m] else []) = []) ↔ ¬c := by
  by_cases h : c <;> simp [h]

theorem jsTrim_empty : jsTrim "" = "" := rfl

theorem promptMissing_eq_true_iff (p : JValue) :
    promptMissing p = true ↔
      (p.isStr = false ∨ ∃ s, p = .jstr s ∧ jsTrim s = "") := by
  cases p <;> simp [promptMissing, JValue.isStr]

theorem promptTooLong_eq_true_iff (p : JValue) :
    promptTooLong p = true ↔
      (p.truthy = true ∧ ∃ n, p.lengthOf = some n ∧ 200 < n) := by
  cases p <;> simp [promptTooLong, JValue.truthy, JValue.lengthOf, jsLenGt]

theorem styleInvalid_eq_true_iff (s : JValue) :
    styleInvalid s = true ↔
      (s.truthy = false ∨ STYLE_PROMPTS s.toPrimString = none) := by
  cases hs : s.truthy <;>
    simp [styleInvalid, hs, Option.isNone_iff_eq_none]

theorem colorsNotArray_eq_true_iff (b : JValue) :
    colorsNotArray b = true ↔ (b.truthy = true ∧ b.isArr = false) := by
  simp [colorsNotArray]

theorem colorsTooMany_eq_true_iff (b : JValue) :
    colorsTooMany b = true ↔
      (b.truthy = true ∧ ∃ n, b.lengthOf = some n ∧ 5 < n) := by
  cases b <;> simp [colorsTooMany, JValue.truthy, JValue.lengthOf, jsLenGt]

theorem promptRules_ok_iff (p : JValue) :
    (promptMissing p = false ∧ promptTooLong p = false) ↔
      ∃ s, p = .jstr s ∧ jsTrim s ≠ "" ∧ s.data.length ≤ 200 := by
  cases p with
  | jstr s =>
    simp only [promptMissing, promptTooLong, jsLenGt, JValue.lengthOf,
      JValue.truthy, decide_eq_false_iff_not, Bool.and_eq_false_iff,
      JValue.jstr.injEq, exists_eq_left']
    constructor
    · rintro ⟨h1, h2⟩
      refine ⟨h1, ?_⟩
      rcases h2 with hs | hl
      · exact absurd (by simp at hs; rw [hs]; exact jsTrim_empty) h1
      · simpa using hl
    · rintro ⟨h1, h2⟩
      exact ⟨h1, Or.inr (by simpa using h2)⟩
  | jnum n => simp [promptMissing]
  | jbool b => simp [promptMissing]
  | jnull => simp [promptMissing]
  | jundef => simp [promptMissing]
  | jarr xs => simp [promptMissing]

theorem styleOk_iff (s : JValue) :
    styleInvalid s = false ↔
      (s.truthy = true ∧ (STYLE_PROMPTS s.toPrimString).isSome = true) := by
  cases hs : s.truthy <;> simp [styleInvalid, hs]

theorem colorsOk_iff (b : JValue) :
    (colorsNotArray b = false ∧ colorsTooMany b = false) ↔
      (b.truthy = false ∨ ∃ cs, b = .jarr cs ∧ cs.length ≤ 5) := by
  cases b <;>
    (simp [colorsNotArray, colorsTooMany, JValue.truthy, JValue.isArr,
      JValue.lengthOf, jsLenGt]; try tauto)

/-! ## Claim theorems -/

/-- **C2** — `generateSeed` is pure and deterministic (calls with equal
inputs give equal values; the embedding is a function of its arguments
only, so no process state can intervene), it equals the absolute value of
the spec's rolling hash `hash = hash*31 + charCode` over the character
codes of `"{prompt}-{style}"` wrapped to signed 32 bits at each step, and
its value is never negative. -/
theorem generateSeed_deterministic_specHash_nonneg
    (prompt : String) (style : Int) :
    (∀ (prompt' : String) (style' : Int),
      prompt = prompt' → style = style' →
      generateSeed prompt style = generateSeed prompt' style') ∧
    generateSeed prompt style = specSeed prompt style ∧
    0 ≤ generateSeed prompt style := by
  refine ⟨?_, ?_, ?_⟩
  · rintro p' s' rfl rfl
    rfl
  · unfold generateSeed specSeed
    rw [hashLoop_eq_specHashLoop]
  · exact abs_nonneg _

set_option maxRecDepth 10000 in
/-- Witness for C2 at `("coffee", 1)` (the test file's own example); the
concrete value matches a by-hand evaluation of the JavaScript hash. -/
theorem generateSeed_deterministic_specHash_nonneg_witness :
    generateSeed "coffee" 1 = generateSeed "coffee" 1 ∧
    generateSeed "coffee" 1 = specSeed "coffee" 1 ∧
    0 ≤ generateSeed "coffee" 1 ∧
    generateSeed "coffee" 1 = 809295248 := by
  have h := generateSeed_deterministic_specHash_nonneg "coffee" 1
  exact ⟨h.1 "coffee" 1 rfl rfl, h.2.1, h.2.2, by decide⟩

set_option maxRecDepth 100000 in
/-- **C6 (counterexample)** — three concrete inputs on which the claim's
"exactly when" conditions fail: (1) a prompt of a space followed by 200
`a`s is non-empty and exactly 200 characters after trimming, yet
`validateInput` flags it, because the 200-character check runs on the raw
length 201; (2) the string `"2"` is not one of the style identifiers 1–5,
yet it is accepted, because JavaScript property lookup coerces the key;
(3) `brandColors = 0` is present and not a sequence, yet it is not
flagged, because the check is gated on truthiness. -/
theorem validateInput_claim_counterexample :
    jsTrim (String.mk (' ' :: List.replicate 200 'a')) ≠ "" ∧
    (jsTrim (String.mk (' ' :: List.replicate 200 'a'))).data.length ≤ 200 ∧
    validateInput (.jstr (String.mk (' ' :: List.replicate 200 'a')))
        (.jnum 1) .jundef
      = ["Prompt must be less than 200 characters"] ∧
    validateInput (.jstr "coffee") (.jstr "2") .jundef = [] ∧
    validateInput (.jstr "coffee") (.jnum 1) (.jnum 0) = [] := by
  decide

/-- **C6 (amended)** — `validateInput` flags the prompt-required rule
exactly when the prompt is not a string or its trimmed form is empty;
flags the 200-character rule exactly when the prompt is truthy and its raw
(untrimmed) `.length` exceeds 200; flags `"Invalid style selection"`
exactly when the style is falsy or its string conversion (the JavaScript
property key) is not a key of the `STYLE_PROMPTS` mapping; flags the
array rule exactly when `brandColors` is truthy and not an array; and
flags the maximum-5 rule exactly when `brandColors` is truthy and its
length exceeds 5. -/
theorem validateInput_rule_characterization (p s b : JValue) :
    ("Prompt is required and must be a non-empty string" ∈ validateInput p s b ↔
      (p.isStr = false ∨ ∃ str, p = .jstr str ∧ jsTrim str = "")) ∧
    ("Prompt must be less than 200 characters" ∈ validateInput p s b ↔
      (p.truthy = true ∧ ∃ n, p.lengthOf = some n ∧ 200 < n)) ∧
    ("Invalid style selection" ∈ validateInput p s b ↔
      (s.truthy = false ∨ STYLE_PROMPTS s.toPrimString = none)) ∧
    ("Brand colors must be an array" ∈ validateInput p s b ↔
      (b.truthy = true ∧ b.isArr = false)) ∧
    ("Maximum 5 brand colors allowed" ∈ validateInput p s b ↔
      (b.truthy = true ∧ ∃ n, b.lengthOf = some n ∧ 5 < n)) := by
  refine ⟨?_, ?_, ?_, ?_, ?_⟩
  · rw [← promptMissing_eq_true_iff]
    unfold validateInput
    cases hp : promptMissing p <;> cases hq : promptTooLong p <;>
      cases hs : styleInvalid s <;> cases hb : colorsNotArray b <;>
      cases hc : colorsTooMany b <;> simp
  · rw [← promptTooLong_eq_true_iff]
    unfold validateInput
    cases hp : promptMissing p <;> cases hq : promptTooLong p <;>
      cases hs : styleInvalid s <;> cases hb : colorsNotArray b <;>
      cases hc : colorsTooMany b <;> simp
  · rw [← styleInvalid_eq_true_iff]
    unfold validateInput
    cases hp : promptMissing p <;> cases hq : promptTooLong p <;>
      cases hs : styleInvalid s <;> cases hb : colorsNotArray b <;>
      cases hc : colorsTooMany b <;> simp
  · rw [← colorsNotArray_eq_true_iff]
    unfold validateInput
    cases hp : promptMissing p <;> cases hq : promptTooLong p <;>
      cases hs : styleInvalid s <;> cases hb : colorsNotArray b <;>
      cases hc : colorsTooMany b <;> simp
  · rw [← colorsTooMany_eq_true_iff]
    unfold validateInput
    cases hp : promptMissing p <;> cases hq : promptTooLong p <;>
      cases hs : styleInvalid s <;> cases hb : colorsNotArray b <;>
      cases hc : colorsTooMany b <;> simp

/-- Witness for the amended C6: the characterization applied at the test
file's invalid-style example (`style = 99`). -/
theorem validateInput_rule_characterization_witness :
    "Invalid style selection" ∈
      validateInput (.jstr "coffee") (.jnum 99) (.jarr []) := by
  have h :=
    validateInput_rule_characterization (.jstr "coffee") (.jnum 99) (.jarr [])
  exact h.2.2.1.mpr (by decide)

/-- **C7** — `validateInput` is total on the modelled JavaScript value
domain (the embedding is a total function: no input throws), its result
is empty exactly when the input satisfies all rules (string prompt with
non-empty trim and raw length ≤ 200, style resolving in `STYLE_PROMPTS`,
`brandColors` falsy or an array of at most 5 entries), and the result is
exactly the list of every violated rule's message, collected
independently in source order, not just the first. -/
theorem validateInput_total_collects (p s b : JValue) :
    (validateInput p s b = [] ↔
      ((∃ str, p = .jstr str ∧ jsTrim str ≠ "" ∧ str.data.length ≤ 200) ∧
       (s.truthy = true ∧ (STYLE_PROMPTS s.toPrimString).isSome = true) ∧
       (b.truthy = false ∨ ∃ cs, b = .jarr cs ∧ cs.length ≤ 5))) ∧
    validateInput p s b =
      (([(promptMissing p, "Prompt is required and must be a non-empty string"),
         (promptTooLong p, "Prompt must be less than 200 characters"),
         (styleInvalid s, "Invalid style selection"),
         (colorsNotArray b, "Brand colors must be an array"),
         (colorsTooMany b, "Maximum 5 brand colors allowed")].filter
            Prod.fst).map Prod.snd) := by
  constructor
  · rw [← promptRules_ok_iff, ← styleOk_iff, ← colorsOk_iff]
    unfold validateInput
    cases hp : promptMissing p <;> cases hq : promptTooLong p <;>
      cases hs : styleInvalid s <;> cases hb : colorsNotArray b <;>
      cases hc : colorsTooMany b <;> simp
  · unfold validateInput
    cases hp : promptMissing p <;> cases hq : promptTooLong p <;>
      cases hs : styleInvalid s <;> cases hb : colorsNotArray b <;>
      cases hc : colorsTooMany b <;> rfl

/-- Witness for C7 at the test file's fully valid example
`("coffee", 1, ["#FF5733"])`. -/
theorem validateInput_total_collects_witness :
    validateInput (.jstr "coffee") (.jnum 1) (.jarr ["#FF5733"]) = [] := by
  have h := validateInput_total_collects (.jstr "coffee") (.jnum 1)
    (.jarr ["#FF5733"])
  exact h.1.mpr ⟨⟨"coffee", rfl, by decide, by decide⟩,
    ⟨by decide, by decide⟩, Or.inr ⟨["#FF5733"], rfl, by decide⟩⟩

/-- **C3 (counterexample)** — `" cat"` passes validation (its trimmed form
`"cat"` is non-empty and short), but the tasks the handler builds for it
use the raw prompt `" cat"`, not the trimmed prompt: the plan differs from
the claim's trimmed-prompt construction (`specPlanTasks`). -/
theorem planTasks_untrimmed_counterexample :
    validateInput (.jstr " cat") (.jnum 1) .jundef = [] ∧
    jsTrim " cat" = "cat" ∧
    planTasks " cat"
        "simple flat icon design, minimal, clean lines, solid colors, professional icon style"
        [] 0 ≠
      specPlanTasks " cat"
        "simple flat icon design, minimal, clean lines, solid colors, professional icon style"
        [] 0 := by
  decide

/-- **C3 (amended)** — for every validated request with base seed `b`, the
planner produces exactly 4 tasks in index order; task `i` has seed
`b + i` (the four seeds `b, b+1, b+2, b+3` are distinct) and its
`fullPrompt` joins, in fixed order: the prompt exactly as received (not
re-trimmed) followed by `" icon"`, the `i`-th variation descriptor, the
style descriptor resolved for the request's style, the exact-colors
clause present iff `brandColors` is non-empty, and the fixed rendering
suffix. -/
theorem planTasks_structure (prompt : String) (style : JValue)
    (styleDescription : String) (brandColors : List String) (b : Int)
    (_hstyle : STYLE_PROMPTS style.toPrimString = some styleDescription) :
    planTasks prompt styleDescription brandColors b =
      (List.range 4).map (fun i =>
        { index := i
          fullPrompt := prompt ++ " icon, " ++ ICON_VARIATIONS.getD i "" ++
            ", " ++ styleDescription ++
            (if brandColors = [] then "" else
              ", using these exact colors: " ++
                String.intercalate ", " brandColors ++
                ", maintain color consistency") ++
            ", 512x512, icon design, white background, centered, high quality"
          seed := b + i }) ∧
    (planTasks prompt styleDescription brandColors b).map
      GenerationTask.seed = [b, b + 1, b + 2, b + 3] ∧
    ((planTasks prompt styleDescription brandColors b).map
      GenerationTask.seed).Nodup ∧
    (planTasks prompt styleDescription brandColors b).map
      GenerationTask.index = [0, 1, 2, 3] := by
  refine ⟨?_, ?_, ?_, ?_⟩
  · unfold planTasks fullPromptFor colorInstruction
    by_cases hc : brandColors = []
    · simp [hc, ICON_VARIATIONS]
    · have hlen : 0 < brandColors.length := List.length_pos.mpr hc
      simp [hc, hlen, ICON_VARIATIONS]
  · simp [planTasks, ICON_VARIATIONS, List.range_succ]
  · simp [planTasks, ICON_VARIATIONS, List.range_succ]
  · simp [planTasks, ICON_VARIATIONS, List.range_succ]

/-- Witness for the amended C3 at `("Toys", style 2, ["#FF5733"], b = 5)`. -/
theorem planTasks_structure_witness :
    (planTasks "Toys"
      "pastel colors, soft gradients, gentle rounded shapes, cute aesthetic, dreamy icon style"
      ["#FF5733"] 5).map GenerationTask.seed = [5, 6, 7, 8] := by
  have h := planTasks_structure "Toys" (.jnum 2)
    "pastel colors, soft gradients, gentle rounded shapes, cute aesthetic, dreamy icon style"
    ["#FF5733"] 5 (by decide)
  have hs := h.2.1
  norm_num at hs
  exact hs

/-- **C4** — with the default `maxRetries = 2`, `retryWithBackoff` invokes
the operation at most 3 times; it returns the outcome of the last
invocation made, every earlier invocation having failed (so the first
success is returned); after a failed non-final attempt `k` it sleeps
`RETRY_DELAY_MS * 2^k` ms (1000 then 2000, non-decreasing); an error is
returned only when all 3 attempts failed; and an operation failing twice
then succeeding is invoked 3 times (retried exactly twice) with delays
`[1000, 2000]`. -/
theorem retryWithBackoff_spec {α : Type} (f : Nat → Except String α) :
    1 ≤ (retryWithBackoff f MAX_RETRIES).calls ∧
    (retryWithBackoff f MAX_RETRIES).calls ≤ 3 ∧
    (retryWithBackoff f MAX_RETRIES).result =
      f ((retryWithBackoff f MAX_RETRIES).calls - 1) ∧
    (∀ j, j < (retryWithBackoff f MAX_RETRIES).calls - 1 →
      exOk (f j) = false) ∧
    (exOk (retryWithBackoff f MAX_RETRIES).result = false →
      (retryWithBackoff f MAX_RETRIES).calls = 3) ∧
    (retryWithBackoff f MAX_RETRIES).delays =
      (List.range ((retryWithBackoff f MAX_RETRIES).calls - 1)).map
        (fun k => RETRY_DELAY_MS * 2 ^ k) ∧
    List.Pairwise (· ≤ ·) (retryWithBackoff f MAX_RETRIES).delays ∧
    (exOk (f 0) = false → exOk (f 1) = false → exOk (f 2) = true →
      (retryWithBackoff f MAX_RETRIES).calls = 3 ∧
      (retryWithBackoff f MAX_RETRIES).result = f 2 ∧
      (retryWithBackoff f MAX_RETRIES).delays = [1000, 2000]) := by
  rcases h0 : f 0 with e0 | v0
  · rcases h1 : f 1 with e1 | v1
    · have ht : retryWithBackoff f MAX_RETRIES =
          { result := f 2, calls := 3, delays := [1000, 2000] } := by
        simp [retryWithBackoff, MAX_RETRIES, retryGo, h0, h1, RETRY_DELAY_MS]
      rw [ht]
      refine ⟨by simp, by simp, by simp, ?_, fun _ => rfl, ?_, ?_,
        fun _ _ _ => ⟨rfl, rfl, rfl⟩⟩
      · intro j hj
        simp at hj
        have hcases : j = 0 ∨ j = 1 := by omega
        rcases hcases with rfl | rfl
        · simp [h0, exOk]
        · simp [h1, exOk]
      · simp [List.range_succ, RETRY_DELAY_MS]
      · simp
    · have ht : retryWithBackoff f MAX_RETRIES =
          { result := .ok v1, calls := 2, delays := [1000] } := by
        simp [retryWithBackoff, MAX_RETRIES, retryGo, h0, h1, RETRY_DELAY_MS]
      rw [ht]
      refine ⟨by simp, by simp, by simp [h1], ?_, ?_, ?_, ?_, ?_⟩
      · intro j hj
        simp at hj
        rcases hj with rfl
        simp [h0, exOk]
      · intro hcon
        simp [exOk] at hcon
      · simp [List.range_succ, RETRY_DELAY_MS]
      · simp
      · intro _ hf1 _
        simp [exOk] at hf1
  · have ht : retryWithBackoff f MAX_RETRIES =
        { result := .ok v0, calls := 1, delays := [] } := by
      simp [retryWithBackoff, MAX_RETRIES, retryGo, h0]
    rw [ht]
    refine ⟨by simp, by simp, by simp [h0], ?_, ?_, ?_, ?_, ?_⟩
    · intro j hj
      simp at hj
    · intro hcon
      simp [exOk] at hcon
    · simp
    · simp
    · intro hf0 _ _
      simp [exOk] at hf0

/-- Witness for C4: a backend failing twice then succeeding is invoked 3
times, returns the success, and sleeps 1000 then 2000 ms. -/
theorem retryWithBackoff_spec_witness :
    (retryWithBackoff
      (fun k => if k < 2 then (.error "boom" : Except String String)
        else .ok "yay") MAX_RETRIES).calls = 3 ∧
    (retryWithBackoff
      (fun k => if k < 2 then (.error "boom" : Except String String)
        else .ok "yay") MAX_RETRIES).result = .ok "yay" ∧
    (retryWithBackoff
      (fun k => if k < 2 then (.error "boom" : Except String String)
        else .ok "yay") MAX_RETRIES).delays = [1000, 2000] := by
  have h := retryWithBackoff_spec
    (fun k => if k < 2 then (.error "boom" : Except String String)
      else .ok "yay")
  obtain ⟨-, -, -, -, -, -, -, hlast⟩ := h
  have h3 := hlast (by decide) (by decide) (by decide)
  refine ⟨h3.1, ?_, h3.2.2⟩
  rw [h3.2.1]
  rfl

theorem runTasksGo_index_perm (fo : Nat → Except String String)
    (p sd : String) (c : List String) (b : Int) :
    ∀ idxs : List Nat,
      ((runTasksGo fo p sd c b idxs).1.map IconResult.index ++
       (runTasksGo fo p sd c b idxs).2.map TaskError.index).Perm idxs := by
  intro idxs
  induction idxs with
  | nil => simp [runTasksGo]
  | cons i rest ih =>
    cases hfo : fo i with
    | ok url =>
      simp only [runTasksGo, hfo, List.map_cons, List.cons_append]
      exact ih.cons i
    | error e =>
      simp only [runTasksGo, hfo, List.map_cons]
      exact List.Perm.trans List.perm_middle (ih.cons i)

theorem runTasksGo_error_mem (fo : Nat → Except String String)
    (p sd : String) (c : List String) (b : Int) :
    ∀ (idxs : List Nat) (i : Nat) (e : String), i ∈ idxs → fo i = .error e →
      TaskError.mk i e ∈ (runTasksGo fo p sd c b idxs).2 := by
  intro idxs
  induction idxs with
  | nil =>
    intro i e hi _
    simp at hi
  | cons j rest ih =>
    intro i e hi hfo
    rcases List.mem_cons.mp hi with rfl | hi'
    · simp [runTasksGo, hfo]
    · cases hj : fo j with
      | ok url =>
        simp only [runTasksGo, hj]
        exact ih i e hi' hfo
      | error e' =>
        simp only [runTasksGo, hj]
        exact List.mem_cons_of_mem _ (ih i e hi' hfo)

theorem runTasksGo_ok_mem (fo : Nat → Except String String)
    (p sd : String) (c : List String) (b : Int) :
    ∀ (idxs : List Nat) (i : Nat) (u : String), i ∈ idxs → fo i = .ok u →
      ({ index := i, url := u
         prompt := fullPromptFor p (ICON_VARIATIONS.getD i "") sd
           (colorInstruction c)
         seed := b + i } : IconResult) ∈ (runTasksGo fo p sd c b idxs).1 := by
  intro idxs
  induction idxs with
  | nil =>
    intro i u hi _
    simp at hi
  | cons j rest ih =>
    intro i u hi hfo
    rcases List.mem_cons.mp hi with rfl | hi'
    · simp [runTasksGo, hfo]
    · cases hj : fo j with
      | ok url =>
        simp only [runTasksGo, hj]
        exact List.mem_cons_of_mem _ (ih i u hi' hfo)
      | error e' =>
        simp only [runTasksGo, hj]
        exact ih i u hi' hfo

/-- **C5** — for every backend behavior, after the task loop completes
there is exactly one outcome per task: the success indices and failure
indices together are a permutation of `{0,1,2,3}` (their sizes sum to 4 —
no task is dropped), a task whose retries end in an error contributes a
failure record carrying its index and reason (never thrown past the
loop), and a task whose retries end in success contributes its success
record — independently of what happens to any sibling task. -/
theorem runTasks_one_outcome_per_task
    (behavior : Nat → Nat → Except String String)
    (prompt styleDescription : String) (brandColors : List String) (b : Int) :
    ((runTasks behavior prompt styleDescription brandColors b).1.map
        IconResult.index ++
      (runTasks behavior prompt styleDescription brandColors b).2.map
        TaskError.index).Perm [0, 1, 2, 3] ∧
    (runTasks behavior prompt styleDescription brandColors b).1.length +
      (runTasks behavior prompt styleDescription brandColors b).2.length
        = 4 ∧
    (∀ i e, i < 4 →
      (retryWithBackoff (behavior i) MAX_RETRIES).result = .error e →
      TaskError.mk i e ∈
        (runTasks behavior prompt styleDescription brandColors b).2) ∧
    (∀ i u, i < 4 →
      (retryWithBackoff (behavior i) MAX_RETRIES).result = .ok u →
      ({ index := i, url := u
         prompt := fullPromptFor prompt (ICON_VARIATIONS.getD i "")
           styleDescription (colorInstruction brandColors)
         seed := b + i } : IconResult) ∈
        (runTasks behavior prompt styleDescription brandColors b).1) := by
  unfold runTasks
  have hrange : List.range ICON_VARIATIONS.length = [0, 1, 2, 3] := rfl
  have hperm := runTasksGo_index_perm
    (fun i => (retryWithBackoff (behavior i) MAX_RETRIES).result)
    prompt styleDescription brandColors b (List.range ICON_VARIATIONS.length)
  refine ⟨hrange ▸ hperm, ?_, ?_, ?_⟩
  · have hl := hperm.length_eq
    simpa using hl
  · intro i e hi hres
    exact runTasksGo_error_mem _ prompt styleDescription brandColors b _ i e
      (by rw [hrange]; simp; omega) hres
  · intro i u hi hres
    exact runTasksGo_ok_mem _ prompt styleDescription brandColors b _ i u
      (by rw [hrange]; simp; omega) hres

/-- Witness for C5: a backend that deterministically fails task 2 and
succeeds elsewhere yields a failure record for index 2. -/
theorem runTasks_one_outcome_per_task_witness :
    TaskError.mk 2 "bad" ∈
      (runTasks (fun i _ => if i == 2 then .error "bad" else .ok "u")
        "cat" "sd" [] 100).2 := by
  have h := runTasks_one_outcome_per_task
    (fun i _ => if i == 2 then .error "bad" else .ok "u") "cat" "sd" [] 100
  exact h.2.2.1 2 "bad" (by decide) (by decide)

instance : IsTotal IconResult (fun a b => a.index ≤ b.index) :=
  ⟨fun a b => Nat.le_total a.index b.index⟩

instance : IsTrans IconResult (fun a b => a.index ≤ b.index) :=
  ⟨fun _ _ _ hab hbc => Nat.le_trans hab hbc⟩

/-- **C1** — for every collection of outcomes: with fewer than 2
successes the aggregator yields the hard failure carrying the success
count against the expected total 4 and no payload at all; with at least 2
successes it yields a payload whose icons are the successes sorted
ascending by index (a sorted permutation), each reduced to its URL,
resolved prompt and seed, whose `partial` flag is true iff successes < 4,
and whose `errors` field is attached iff at least one failure exists
(`none` models the omitted `undefined` field). -/
theorem aggregate_partial_success_spec (results : List IconResult)
    (errors : List TaskError) :
    (results.length < 2 →
      aggregate results errors = .insufficient results.length 4) ∧
    (2 ≤ results.length →
      ∃ payload,
        aggregate results errors = .ok payload ∧
        payload.icons = (sortByIndex results).map (fun r =>
          { url := r.url, prompt := r.prompt, seed := r.seed }) ∧
        (sortByIndex results).Perm results ∧
        (sortByIndex results).Sorted (fun a b => a.index ≤ b.index) ∧
        (payload.partialFlag = true ↔ results.length < 4) ∧
        (payload.errors = some errors ↔ errors ≠ []) ∧
        (payload.errors = none ↔ errors = [])) := by
  constructor
  · intro h
    unfold aggregate
    rw [if_neg (by omega)]
  · intro h
    refine ⟨_, by unfold aggregate; rw [if_pos h], rfl,
      List.perm_insertionSort _ _, List.sorted_insertionSort _ _,
      ?_, ?_, ?_⟩
    · simp
    · cases errors <;> simp
    · cases errors <;> simp

/-- Witness for C1 at the spec's partial-success scenario: three
successes (out of order) and one failure at index 3 yield a payload with
`partial = true` and the errors field attached. -/
theorem aggregate_partial_success_spec_witness :
    ∃ payload,
      aggregate [⟨1, "u1", "p1", 11⟩, ⟨0, "u0", "p0", 10⟩, ⟨2, "u2", "p2", 12⟩]
          [⟨3, "boom"⟩] = .ok payload ∧
      payload.partialFlag = true ∧
      payload.errors = some [⟨3, "boom"⟩] ∧
      payload.icons =
        [⟨"u0", "p0", 10⟩, ⟨"u1", "p1", 11⟩, ⟨"u2", "p2", 12⟩] := by
  have h := (aggregate_partial_success_spec
    [⟨1, "u1", "p1", 11⟩, ⟨0, "u0", "p0", 10⟩, ⟨2, "u2", "p2", 12⟩]
    [⟨3, "boom"⟩]).2 (by decide)
  obtain ⟨payload, heq, hicons, -, -, hflag, herr, -⟩ := h
  refine ⟨payload, heq, hflag.mpr (by decide), herr.mpr (by decide), ?_⟩
  rw [hicons]
  decide

/-- **C8 (counterexample)** — a failure message containing both
`"API key"` and `"rate limit"` is mapped to 503, not to the 429 the claim
assigns to every reason containing `"rate limit"`: the source's `if/else
if` chain gives `"API key"` precedence. -/
theorem errorResponse_overlap_counterexample :
    jsIncludes "API key rate limit" "rate limit" = true ∧
    (errorResponse "API key rate limit").1 = 503 ∧
    (errorResponse "API key rate limit").1 ≠ 429 := by
  decide

/-- **C8 (amended)** — the status is chosen by ordered substring
matching: a reason containing `"API key"` yields 503; otherwise one
containing `"timeout"` yields 504; otherwise one containing
`"rate limit"` yields 429; otherwise 500.  In every case the body carries
the corresponding error string together with the original message as
details. -/
theorem errorResponse_status_priority (message : String) :
    (jsIncludes message "API key" = true →
      errorResponse message = (503, "API configuration error", message)) ∧
    (jsIncludes message "API key" = false →
      jsIncludes message "timeout" = true →
      errorResponse message =
        (504, "Request timeout - please try again", message)) ∧
    (jsIncludes message "API key" = false →
      jsIncludes message "timeout" = false →
      jsIncludes message "rate limit" = true →
      errorResponse message =
        (429, "Rate limit exceeded - please wait a moment", message)) ∧
    (jsIncludes message "API key" = false →
      jsIncludes message "timeout" = false →
      jsIncludes message "rate limit" = false →
      errorResponse message = (500, "Failed to generate icons", message)) := by
  refine ⟨fun h1 => ?_, fun h1 h2 => ?_, fun h1 h2 h3 => ?_,
    fun h1 h2 h3 => ?_⟩ <;>
    simp [errorResponse, h1]
  · simp [h2]
  · simp [h2, h3]
  · simp [h2, h3]

/-- Witness for the amended C8: a pure rate-limit message yields 429 with
the original message as details. -/
theorem errorResponse_status_priority_witness :
    errorResponse "Request rate limit hit" =
      (429, "Rate limit exceeded - please wait a moment",
        "Request rate limit hit") := by
  have h := errorResponse_status_priority "Request rate limit hit"
  exact h.2.2.1 (by decide) (by decide) (by decide)

/-- **C9 (counterexample)** — the tasks do not all launch at the batch
start: with a backend that always fails instantly (every attempt takes 0
time), task 1 starts only at 3000 ms virtual time — after task 0's two
backoff sleeps — and tasks 2 and 3 at 6000 and 9000 ms, refuting both
"all tasks launch concurrently" and "suspensions do not delay or block
sibling tasks". -/
theorem launchTimes_not_concurrent :
    launchTimes (fun _ _ => .error "service unavailable") (fun _ _ => 0) =
      [0, 3000, 6000, 9000] ∧
    ¬ ∀ (behavior : Nat → Nat → Except String String)
        (dur : Nat → Nat → Nat),
        launchTimes behavior dur = [0, 0, 0, 0] := by
  refine ⟨by decide, fun hall => ?_⟩
  have h := hall (fun _ _ => .error "service unavailable") (fun _ _ => 0)
  have heval : launchTimes (fun _ _ => .error "service unavailable")
      (fun _ _ => 0) = [0, 3000, 6000, 9000] := by decide
  rw [heval] at h
  exact absurd h (by decide)

/-- **C9 (amended)** — the handler executes the 4 generation tasks
sequentially in ascending index order: each task (its backend awaits and
its backoff sleeps included) finishes before the next one starts, so task
`i`'s launch time is the sum of the elapsed times of tasks `0..i-1` and
one task's suspensions do delay every later sibling. -/
theorem launchTimes_sequential (behavior : Nat → Nat → Except String String)
    (dur : Nat → Nat → Nat) :
    launchTimes behavior dur =
      [0,
       taskElapsed (behavior 0) (dur 0),
       taskElapsed (behavior 0) (dur 0) + taskElapsed (behavior 1) (dur 1),
       taskElapsed (behavior 0) (dur 0) + taskElapsed (behavior 1) (dur 1) +
         taskElapsed (behavior 2) (dur 2)] := by
  simp [launchTimes, ICON_VARIATIONS, List.range_succ]

theorem promiseAll_error_of_exists (o : Nat → Except String String) :
    ∀ l : List Nat, (∃ i ∈ l, exOk (o i) = false) →
      ∃ e, promiseAll o l = .error e := by
  intro l
  induction l with
  | nil =>
    rintro ⟨i, hi, -⟩
    simp at hi
  | cons j rest ih =>
    rintro ⟨i, hi, hfail⟩
    rcases List.mem_cons.mp hi with rfl | hi'
    · cases ho : o i with
      | error e => exact ⟨e, by simp [promiseAll, ho]⟩
      | ok u => rw [ho] at hfail; simp [exOk] at hfail
    · cases ho : o j with
      | error e => exact ⟨e, by simp [promiseAll, ho]⟩
      | ok u =>
        obtain ⟨e, he⟩ := ih ⟨i, hi', hfail⟩
        exact ⟨e, by simp [promiseAll, ho, he]⟩

theorem promiseAll_ok_facts (o : Nat → Except String String) :
    ∀ (l : List Nat) (v : List (Nat × String)), promiseAll o l = .ok v →
      v.length = l.length ∧ ∀ i ∈ l, exOk (o i) = true := by
  intro l
  induction l with
  | nil =>
    intro v hv
    simp [promiseAll] at hv
    simp [← hv]
  | cons j rest ih =>
    intro v hv
    cases ho : o j with
    | error e => simp [promiseAll, ho] at hv
    | ok u =>
      cases hrest : promiseAll o rest with
      | error e => simp [promiseAll, ho, hrest] at hv
      | ok w =>
        simp [promiseAll, ho, hrest] at hv
        obtain ⟨hw, hall⟩ := ih w hrest
        subst hv
        refine ⟨by simp [hw], ?_⟩
        intro i hi
        rcases List.mem_cons.mp hi with rfl | hi'
        · simp [ho, exOk]
        · exact hall i hi'

/-- **C10** — in the older handlers (the netlify function and the express
route) there is no retry and no partial-success path: whenever at least
one of the 4 generation calls fails, the joined `Promise.all` rejects and
the whole request answers 500 `{ error, details }` with no icons; hence a
success response always carries exactly 4 icons (and a `LegacyIcon`
carries only `url` and `prompt` — the response has no seed field at
all). -/
theorem legacyHandler_no_partial_success
    (outcome : Nat → Except String String)
    (prompt styleDescription : String) (brandColors : Option (List String)) :
    ((∃ i, i < 4 ∧ exOk (outcome i) = false) →
      ∃ e, legacyHandler outcome prompt styleDescription brandColors =
        .failure 500 "Failed to generate icons" e) ∧
    (∀ icons, legacyHandler outcome prompt styleDescription brandColors =
        .success icons →
      icons.length = 4 ∧ ∀ i, i < 4 → exOk (outcome i) = true) := by
  constructor
  · rintro ⟨i, hi, hfail⟩
    obtain ⟨e, he⟩ := promiseAll_error_of_exists outcome
      (List.range ICON_VARIATIONS.length)
      ⟨i, by simp [ICON_VARIATIONS, List.mem_range]; omega, hfail⟩
    exact ⟨e, by unfold legacyHandler; rw [he]⟩
  · intro icons hsucc
    unfold legacyHandler at hsucc
    cases hp : promiseAll outcome (List.range ICON_VARIATIONS.length) with
    | error e =>
      rw [hp] at hsucc
      simp at hsucc
    | ok pairs =>
      rw [hp] at hsucc
      simp at hsucc
      obtain ⟨hlen, hall⟩ := promiseAll_ok_facts outcome _ pairs hp
      constructor
      · rw [← hsucc]
        simp [hlen, ICON_VARIATIONS]
      · intro i hi
        exact hall i (by simp [ICON_VARIATIONS, List.mem_range]; omega)

/-- Witness for C10: a backend failing only task 3 makes the whole legacy
request a 500 failure with no icons. -/
theorem legacyHandler_no_partial_success_witness :
    ∃ e, legacyHandler (fun i => if i == 3 then .error "boom" else .ok "u")
        "cat" "sd" none = .failure 500 "Failed to generate icons" e := by
  have h := legacyHandler_no_partial_success
    (fun i => if i == 3 then .error "boom" else .ok "u") "cat" "sd" none
  exact h.1 ⟨3, by decide, by decide⟩

end IconGen
